import Mathlib

/-!
Shallow embedding of the `lc3-vm` Rust sources (`src/cpu.rs`, `src/memory.rs`)
and verification of spec properties against it.

Machine words are `u16` in Rust; they are embedded as `Nat` with explicit
reduction modulo 2^16 wherever a value is stored into a 16-bit cell or used
as a 16-bit index, matching release-mode (wrapping) arithmetic.
-/

namespace LC3

/-- Reduce a value to 16 bits (the `u16` type of registers and memory cells). -/
def wrap (n : Nat) : Nat := n % 65536

/-- Register-file indices: discriminants of the Rust `Register` enum
(`cpu.rs` lines 33-45). `R0`..`R7` are 0..7, `PC` is 8, `COND` is 9. -/
def R0 : Nat := 0

def R1 : Nat := 1

def R2 : Nat := 2

def R7 : Nat := 7

def RPC : Nat := 8

def RCOND : Nat := 9

/-- `ConditionFlag::POS` (`cpu.rs` line 11). -/
def FlagPOS : Nat := 1

/-- `ConditionFlag::ZRO` (`cpu.rs` line 12). -/
def FlagZRO : Nat := 2

/-- `ConditionFlag::NEG` (`cpu.rs` line 13). -/
def FlagNEG : Nat := 4

/-- The machine state: the CPU register file (`Cpu.registers`, an array of
ten `u16` cells indexed by `Register` discriminant or raw `u16`), the
65536-cell memory (`Memory`, `memory.rs`), plus the byte-input stream
consumed by GETC/IN and the character-output stream written by
OUT/PUTS/IN/PUTSP/HALT (stdin/stdout in the Rust code). -/
structure Machine where
  regs : Nat → Nat
  mem : Nat → Nat
  input : List Nat
  output : List Nat

/-- Store a `u16` value into register slot `i` (the `IndexMut` impls of
`cpu.rs` lines 332-350; the cell type `u16` is the modulo reduction). -/
def setReg (s : Machine) (i v : Nat) : Machine :=
  { s with regs := fun j => if j = i then wrap v else s.regs j }

/-- Read memory at a `u16` address (`Memory`'s `Index<u16>`, `memory.rs`
lines 18-24). -/
def readMem (s : Machine) (a : Nat) : Nat :=
  s.mem (wrap a)

/-- Store a `u16` value into the memory cell at a `u16` address
(`Memory`'s `IndexMut<u16>`, `memory.rs` lines 26-30). -/
def setMem (s : Machine) (a v : Nat) : Machine :=
  { s with mem := fun b => if b = wrap a then wrap v else s.mem b }

/-- `Cpu::fetch` (`cpu.rs` lines 135-139): read memory at PC, then
increment PC (a wrapping `u16` increment). Returns the fetched word and
the updated state. -/
def fetch (s : Machine) : Nat × Machine :=
  (readMem s (s.regs RPC), setReg s RPC (s.regs RPC + 1))

/-- `Cpu::update_flags` (`cpu.rs` lines 141-149): set COND from the current
value of register slot `r`. -/
def update_flags (s : Machine) (r : Nat) : Machine :=
  if s.regs r = 0 then setReg s RCOND FlagZRO
  else if s.regs r >>> 15 = 1 then setReg s RCOND FlagNEG
  else setReg s RCOND FlagPOS

/-- `char::from_u32`: valid for every code point below 0x110000 except the
surrogate range 0xD800..=0xDFFF. The Rust trap handlers call
`.unwrap()` on this, so `none` here means the process aborts. -/
def charFromU32 (v : Nat) : Option Nat :=
  if v < 0xD800 ∨ (0xDFFF < v ∧ v < 0x110000) then some v else none

/-- `io::stdin().read(&mut [0u8; 1])`: take one byte off the input stream;
at end of stream the one-byte buffer keeps its zero initializer. -/
def readByte : List Nat → Nat × List Nat
  | [] => (0, [])
  | b :: rest => (b, rest)

/-- Result of one instruction: proceed with the loop, return from
`Cpu::execute` (HALT), abort the process (a Rust `panic`, recording the
offending instruction word and the state at the abort), or loop forever
inside a trap service routine. -/
inductive StepResult where
  | next (s : Machine)
  | halted (s : Machine)
  | fatal (instr : Nat) (s : Machine)
  | hang

/-- Outcome of the character-collecting loops of PUTS/PUTSP: the collected
code points, a `char::from_u32` unwrap failure, or no zero terminator
found within `fuel` cells (the Rust loop then never ends, since the `u16`
cursor revisits the same 65536 cells forever). -/
inductive StrRes where
  | ok (cs : List Nat)
  | badChar
  | noEnd
deriving DecidableEq

/-- The PUTS loop (`cpu.rs` lines 267-278): read cells at `loc`, `loc+1`,
... (a wrapping `u16` cursor) until a zero word, converting each cell with
`char::from_u32(..).unwrap()`. -/
def putsLoop (mem : Nat → Nat) (loc : Nat) : Nat → StrRes
  | 0 => .noEnd
  | f + 1 =>
    let chr := mem (wrap loc)
    if chr = 0 then .ok []
    else
      match charFromU32 chr with
      | none => .badChar
      | some c =>
        match putsLoop mem (loc + 1) f with
        | .ok cs => .ok (c :: cs)
        | r => r

/-- The PUTSP loop (`cpu.rs` lines 292-309): per nonzero cell, emit the low
byte, then the high byte when it is nonzero. -/
def putspLoop (mem : Nat → Nat) (loc : Nat) : Nat → StrRes
  | 0 => .noEnd
  | f + 1 =>
    let chr := mem (wrap loc)
    if chr = 0 then .ok []
    else
      match charFromU32 (chr &&& 0xFF) with
      | none => .badChar
      | some c1 =>
        let chr2 := chr >>> 8
        if chr2 = 0 then
          match putspLoop mem (loc + 1) f with
          | .ok cs => .ok (c1 :: cs)
          | r => r
        else
          match charFromU32 chr2 with
          | none => .badChar
          | some c2 =>
            match putspLoop mem (loc + 1) f with
            | .ok cs => .ok (c1 :: c2 :: cs)
            | r => r

/-- Code points of the IN prompt `"Enter a character: "` (`cpu.rs` line 283). -/
def promptOut : List Nat := "Enter a character: ".toList.map Char.toNat

/-- Code points of `println!("HALT")` (`cpu.rs` line 314). -/
def haltOut : List Nat := "HALT\n".toList.map Char.toNat

/-- Decode-and-execute of one already-fetched instruction word: the body of
the `loop` in `Cpu::execute` (`cpu.rs` lines 153-319), with `Opcode::from`
(match on `instr >> 12`, lines 95-117) and `Trapcode::from` (lines 56-68)
inlined as the equivalent comparison chains. Every bit-level extraction
is copied verbatim from the Rust arms, including the masks used there. -/
def execInstr (instr : Nat) (s : Machine) : StepResult :=
  let op := instr >>> 12
  if op = 0 then
    -- Opcode::BR (lines 155-161)
    let cond := (instr >>> 9) &&& 0b111
    let pc_offset := instr &&& 0b11111111
    if cond &&& s.regs RCOND = 1 then
      .next (setReg s RPC (s.regs RPC + pc_offset))
    else .next s
  else if op = 1 then
    -- Opcode::ADD (lines 162-174)
    let dr := (instr >>> 9) &&& 0b111
    let sr1 := (instr >>> 6) &&& 0b111
    let s1 :=
      if (instr >>> 5) &&& 0b1 = 0 then
        let sr2 := instr &&& 0b111
        setReg s dr (s.regs sr1 + s.regs sr2)
      else
        let imm := instr &&& 0b11111
        setReg s dr (s.regs sr1 + imm)
    .next (update_flags s1 dr)
  else if op = 2 then
    -- Opcode::LD (lines 175-180); note the destination written is R0
    let dr := (instr >>> 9) &&& 0b111
    let pc_offset := instr &&& 0b11111111
    let s1 := setReg s R0 (readMem s (s.regs RPC + pc_offset))
    .next (update_flags s1 dr)
  else if op = 3 then
    -- Opcode::ST (lines 181-185)
    let dr := (instr >>> 9) &&& 0b111
    let pc_offset := instr &&& 0b11111111
    .next (setMem s (s.regs RPC + pc_offset) (s.regs dr))
  else if op = 4 then
    -- Opcode::JSR (lines 186-195)
    let s1 := setReg s R7 (s.regs RPC)
    if (instr >>> 11) &&& 0b1 = 1 then
      let pc_offset := instr &&& 0b1111111111
      .next (setReg s1 RPC (s1.regs RPC + pc_offset))
    else
      let r1 := (instr >>> 6) &&& 0b111
      .next (setReg s1 RPC (s1.regs r1))
  else if op = 5 then
    -- Opcode::AND (lines 196-208)
    let dr := (instr >>> 9) &&& 0b111
    let sr1 := (instr >>> 6) &&& 0b111
    let s1 :=
      if (instr >>> 5) &&& 0b1 = 0 then
        let sr2 := instr &&& 0b111
        setReg s dr (s.regs sr1 &&& s.regs sr2)
      else
        let imm := instr &&& 0b11111
        setReg s dr (s.regs sr1 &&& imm)
    .next (update_flags s1 dr)
  else if op = 6 then
    -- Opcode::LDR (lines 209-215)
    let dr := (instr >>> 9) &&& 0b111
    let base_r := (instr >>> 6) &&& 0b111
    let offset := instr &&& 0b111111
    let s1 := setReg s dr (readMem s (s.regs base_r + offset))
    .next (update_flags s1 dr)
  else if op = 7 then
    -- Opcode::STR (lines 216-221); note the offset mask and shift
    let sr := (instr >>> 9) &&& 0b111
    let base_r := (instr >>> 6) &&& 0b111
    let offset := (instr >>> 6) &&& 0b11111
    .next (setMem s (s.regs base_r + offset) (s.regs sr))
  else if op = 8 then
    -- Opcode::RTI (line 222): panic
    .fatal instr s
  else if op = 9 then
    -- Opcode::NOT (lines 223-228); `!x` on u16 is XOR with 0xFFFF
    let dr := (instr >>> 9) &&& 0b111
    let sr := (instr >>> 6) &&& 0b111
    let s1 := setReg s dr (s.regs sr ^^^ 0xFFFF)
    .next (update_flags s1 dr)
  else if op = 10 then
    -- Opcode::LDI (lines 229-235)
    let dr := (instr >>> 9) &&& 0b111
    let pc_offset := instr &&& 0b11111111
    let loc := s.regs RPC + pc_offset
    let s1 := setReg s dr (readMem s (readMem s loc))
    .next (update_flags s1 dr)
  else if op = 11 then
    -- Opcode::STI (lines 236-241)
    let dr := (instr >>> 9) &&& 0b111
    let pc_offset := instr &&& 0b11111111
    let addr := readMem s (s.regs RPC + pc_offset)
    .next (setMem s addr (s.regs dr))
  else if op = 12 then
    -- Opcode::JMP (lines 242-245)
    let r1 := (instr >>> 6) &&& 0b111
    .next (setReg s RPC (s.regs r1))
  else if op = 13 then
    -- Opcode::RES (line 246): panic
    .fatal instr s
  else if op = 14 then
    -- Opcode::LEA (lines 247-252)
    let dr := (instr >>> 9) &&& 0b111
    let pc_offset := instr &&& 0b11111111
    let s1 := setReg s dr (s.regs RPC + pc_offset)
    .next (update_flags s1 dr)
  else if op = 15 then
    -- Opcode::TRAP (lines 253-318): R7 = PC, then dispatch on the low byte
    let s1 := setReg s R7 (s.regs RPC)
    let code := instr &&& 0b11111111
    if code = 0x20 then
      -- Trapcode::GETC (lines 257-261): no flag update
      let br := readByte s1.input
      .next (setReg { s1 with input := br.2 } R0 br.1)
    else if code = 0x21 then
      -- Trapcode::OUT (lines 262-265)
      match charFromU32 (s1.regs R0) with
      | none => .fatal instr s1
      | some c => .next { s1 with output := s1.output ++ [c] }
    else if code = 0x22 then
      -- Trapcode::PUTS (lines 266-281)
      match putsLoop s1.mem (s1.regs R0) 65536 with
      | .ok cs => .next { s1 with output := s1.output ++ cs }
      | .badChar => .fatal instr s1
      | .noEnd => .hang
    else if code = 0x23 then
      -- Trapcode::IN (lines 282-290): prompt, read, store in R0, flags from R0
      let s2 := { s1 with output := s1.output ++ promptOut }
      let br := readByte s2.input
      let s3 := setReg { s2 with input := br.2 } R0 br.1
      .next (update_flags s3 0)
    else if code = 0x24 then
      -- Trapcode::PUTSP (lines 291-312)
      match putspLoop s1.mem (s1.regs R0) 65536 with
      | .ok cs => .next { s1 with output := s1.output ++ cs }
      | .badChar => .fatal instr s1
      | .noEnd => .hang
    else if code = 0x25 then
      -- Trapcode::HALT (lines 313-316): print notice, return
      .halted { s1 with output := s1.output ++ haltOut }
    else
      -- Trapcode::from default arm (line 65): panic
      .fatal instr s1
  else
    -- Opcode::from default arm (line 114); unreachable for instr < 65536
    .fatal instr s

/-- One full cycle of the `Cpu::execute` loop: fetch, then decode/execute. -/
def step (s : Machine) : StepResult :=
  let f := fetch s
  execInstr f.1 f.2

/-- The machine state observable in a step result (`none` when the service
routine loops forever and no state is ever observable again). -/
def resultState : StepResult → Option Machine
  | .next s => some s
  | .halted s => some s
  | .fatal _ s => some s
  | .hang => none

def isNext : StepResult → Bool
  | .next _ => true
  | _ => false

def isHalted : StepResult → Bool
  | .halted _ => true
  | _ => false

def isFatal : StepResult → Bool
  | .fatal _ _ => true
  | _ => false

/-- Register `i` in the result state. -/
def resultReg (r : StepResult) (i : Nat) : Option Nat :=
  (resultState r).map fun s => s.regs i

/-- Memory cell `a` in the result state. -/
def resultMem (r : StepResult) (a : Nat) : Option Nat :=
  (resultState r).map fun s => s.mem a

/-- The output stream in the result state. -/
def resultOutput (r : StepResult) : Option (List Nat) :=
  (resultState r).map fun s => s.output

/-- Sign extension as the spec defines it (spec §4.2 and §8): the `w`-bit
field `f` interpreted as two's complement, represented in 16 bits. Spec-side
definition, used only to compare against what the code computes. -/
def spec_sign_extend (f w : Nat) : Nat :=
  if f < 2 ^ (w - 1) then f else f + (65536 - 2 ^ w)

/-- A concrete machine from a PC, a COND value, values for R0..R7 and an
association list for memory (absent cells are zero). -/
def mkMachine (pc cond : Nat) (rs : List Nat) (mems : List (Nat × Nat))
    (inp : List Nat) : Machine :=
  { regs := fun i => if i = RPC then pc else if i = RCOND then cond else rs.getD i 0
    mem := fun a => ((mems.lookup a).getD 0)
    input := inp
    output := [] }


/-- The cells of memory from address `loc` (inclusive, along the wrapping
`u16` cursor of the PUTS loop) up to but excluding the first zero word:
`cellsAt mem loc cs` holds when `cs` is exactly that nonzero prefix. -/
def cellsAt (mem : Nat → Nat) (loc : Nat) : List Nat → Bool
  | [] => mem (wrap loc) == 0
  | c :: rest => (mem (wrap loc) == c) && (c != 0) && cellsAt mem (loc + 1) rest

/-! ### Concrete machine states used by the claim theorems -/

/-- BR taken under the code's test: COND = POS, condition mask 0b001,
PCoffset9 field 0b111111110; `mem[0x3000] = 0x03FE`. -/
def brState : Machine := mkMachine 0x3000 FlagPOS [] [(0x3000, 0x03FE)] []

/-- COND = NEG, about to execute a BR with condition mask 0b100 and
PCoffset9 = 2 (instruction word 0x0802), PC already post-increment. -/
def brNegState : Machine := mkMachine 0x3001 FlagNEG [] [] []

/-- R1 = 0x8000, `mem[0x3006] = 7`, PC post-increment at 0x3001; about to
execute LD DR=R1, PCoffset = 5 (instruction word 0x2205). -/
def ldState : Machine := mkMachine 0x3001 FlagZRO [0, 0x8000] [(0x3006, 7)] []

/-- R1 = 0x42, R2 = 0x4000; about to execute STR SR=R1, BaseR=R2,
offset6 = 3 (instruction word 0x7283). -/
def strState : Machine := mkMachine 0x3001 FlagZRO [0, 0x42, 0x4000] [] []

/-- R2 = 0x8000 (stale, negative), `mem[0x3004] = 5`; about to execute
LD DR=R2, PCoffset = 3 (instruction word 0x2403). -/
def ldFlagState : Machine := mkMachine 0x3001 FlagZRO [0, 0, 0x8000] [(0x3004, 5)] []

/-- PC = 0xFFFF, `mem[0xFFFF] = 0x1234`: exercises the PC wrap in fetch. -/
def fetchWrapState : Machine := mkMachine 0xFFFF FlagZRO [] [(0xFFFF, 0x1234)] []

/-- COND = ZRO, one byte 0x41 pending on the input stream. -/
def inState : Machine := mkMachine 0x3001 FlagZRO [] [] [0x41]

/-- COND = POS, R0 = 7; used to exercise a store instruction. -/
def stState : Machine := mkMachine 0x3001 FlagPOS [7] [] []

/-- R0 = 0x4000 and memory spelling "HI" (72, 73, 0) at 0x4000. -/
def putsState : Machine :=
  mkMachine 0x3001 FlagZRO [0x4000] [(0x4000, 72), (0x4001, 73)] []

/-- R0 = 0x4000 and a lone surrogate word 0xD800 at 0x4000 before the
zero terminator. -/
def putsBadState : Machine :=
  mkMachine 0x3001 FlagZRO [0x4000] [(0x4000, 0xD800)] []

/-- R0 holds the surrogate value 0xD800; printing it with OUT aborts. -/
def outBadState : Machine := mkMachine 0x3001 FlagZRO [0xD800] [] []

/-- R0 = 0xFFFF (stale high bits), one byte 65 pending on input. -/
def getcState : Machine := mkMachine 0x3001 FlagZRO [0xFFFF] [] [65]

/-- An empty machine at PC 0x3001, COND = ZRO. -/
def plainState : Machine := mkMachine 0x3001 FlagZRO [] [] []

/-! ### Helper lemmas about the state operations -/

theorem setReg_regs (s : Machine) (i v j : Nat) :
    (setReg s i v).regs j = if j = i then wrap v else s.regs j := rfl

theorem setReg_mem (s : Machine) (i v : Nat) : (setReg s i v).mem = s.mem := rfl

theorem setReg_input (s : Machine) (i v : Nat) :
    (setReg s i v).input = s.input := rfl

theorem setReg_output (s : Machine) (i v : Nat) :
    (setReg s i v).output = s.output := rfl

theorem setMem_regs (s : Machine) (a v : Nat) : (setMem s a v).regs = s.regs := rfl

theorem update_flags_regs_ne (s : Machine) (r j : Nat) (h : j ≠ RCOND) :
    (update_flags s r).regs j = s.regs j := by
  unfold update_flags
  split <;> [skip; split] <;> simp [setReg_regs, h]

theorem update_flags_output (s : Machine) (r : Nat) :
    (update_flags s r).output = s.output := by
  unfold update_flags
  split <;> [skip; split] <;> rfl

/-- When `cs` is the nonzero prefix of memory at `loc`, every element of it
is a valid code point, and there is enough fuel, the PUTS loop collects
exactly `cs`. -/
theorem putsLoop_ok (cs : List Nat) : ∀ (mem : Nat → Nat) (loc fuel : Nat),
    cellsAt mem loc cs = true →
    (∀ c ∈ cs, charFromU32 c = some c) →
    cs.length < fuel →
    putsLoop mem loc fuel = .ok cs := by
  induction cs with
  | nil =>
    intro mem loc fuel h _ hf
    match fuel, hf with
    | f + 1, _ =>
      simp only [cellsAt, beq_iff_eq] at h
      simp [putsLoop, h]
  | cons c rest ih =>
    intro mem loc fuel h hv hf
    match fuel, hf with
    | f + 1, hf =>
      simp only [cellsAt, Bool.and_eq_true, beq_iff_eq, bne_iff_ne] at h
      obtain ⟨⟨hc, hcz⟩, hrest⟩ := h
      have hvr : ∀ x ∈ rest, charFromU32 x = some x := fun x hx =>
        hv x (List.mem_cons_of_mem _ hx)
      have := ih mem (loc + 1) f hrest hvr (by simpa using hf)
      simp [putsLoop, hc, hcz, hv c (List.mem_cons_self c rest), this]

/-- Decode-level inversion: the only instruction whose execution returns
from the run loop is TRAP with service code HALT (0x25). -/
theorem execInstr_halted (instr : Nat) (s : Machine) (m : Machine)
    (hm : execInstr instr s = .halted m) :
    instr >>> 12 = 15 ∧ instr &&& 255 = 0x25 := by
  obtain ⟨k, hk⟩ : ∃ k, instr >>> 12 = k := ⟨_, rfl⟩
  have hop : k = 0 ∨ k = 1 ∨ k = 2 ∨ k = 3 ∨ k = 4 ∨ k = 5 ∨ k = 6 ∨ k = 7 ∨
      k = 8 ∨ k = 9 ∨ k = 10 ∨ k = 11 ∨ k = 12 ∨ k = 13 ∨ k = 14 ∨ k = 15 ∨
      16 ≤ k := by omega
  simp only [execInstr, hk] at hm
  rcases hop with h | h | h | h | h | h | h | h | h | h | h | h | h | h | h | h | h
  case _ =>
    subst h; norm_num at hm
    split at hm <;> exact StepResult.noConfusion hm
  case _ => subst h; norm_num at hm; exact StepResult.noConfusion hm
  case _ => subst h; norm_num at hm; exact StepResult.noConfusion hm
  case _ => subst h; norm_num at hm; exact StepResult.noConfusion hm
  case _ =>
    subst h; norm_num at hm
    split at hm <;> exact StepResult.noConfusion hm
  case _ => subst h; norm_num at hm; exact StepResult.noConfusion hm
  case _ => subst h; norm_num at hm; exact StepResult.noConfusion hm
  case _ => subst h; norm_num at hm; exact StepResult.noConfusion hm
  case _ => subst h; norm_num at hm; exact StepResult.noConfusion hm
  case _ => subst h; norm_num at hm; exact StepResult.noConfusion hm
  case _ => subst h; norm_num at hm; exact StepResult.noConfusion hm
  case _ => subst h; norm_num at hm; exact StepResult.noConfusion hm
  case _ => subst h; norm_num at hm; exact StepResult.noConfusion hm
  case _ => subst h; norm_num at hm; exact StepResult.noConfusion hm
  case _ => subst h; norm_num at hm; exact StepResult.noConfusion hm
  case _ =>
    subst h; norm_num at hm
    refine ⟨hk, ?_⟩
    by_cases h20 : instr &&& 255 = 0x20
    · rw [if_pos h20] at hm; exact StepResult.noConfusion hm
    rw [if_neg h20] at hm
    by_cases h21 : instr &&& 255 = 0x21
    · rw [if_pos h21] at hm
      split at hm <;> exact StepResult.noConfusion hm
    rw [if_neg h21] at hm
    by_cases h22 : instr &&& 255 = 0x22
    · rw [if_pos h22] at hm
      split at hm <;> exact StepResult.noConfusion hm
    rw [if_neg h22] at hm
    by_cases h23 : instr &&& 255 = 0x23
    · rw [if_pos h23] at hm; exact StepResult.noConfusion hm
    rw [if_neg h23] at hm
    by_cases h24 : instr &&& 255 = 0x24
    · rw [if_pos h24] at hm
      split at hm <;> exact StepResult.noConfusion hm
    rw [if_neg h24] at hm
    by_cases h25 : instr &&& 255 = 0x25
    · exact h25
    rw [if_neg h25] at hm
    exact StepResult.noConfusion hm
  case _ =>
    repeat rw [if_neg (show ¬_ by omega)] at hm
    exact StepResult.noConfusion hm

end LC3

namespace LC3

/-! ### Claim theorems -/

/-- C1: the code does not sign-extend offset/immediate fields, nor does it
extract them at their full architectural width. Executing BR (taken under
the code's own test) with 9-bit offset field 0b111111110 from PC 0x3000:
the code masks the field to its low 8 bits (0xFE = 254) and adds it raw,
leaving PC = 0x30FF, whereas sign extension of the 9-bit field gives
0xFFFE (two's-complement -2) and branch target 0x2FFF. -/
theorem c1_offset_fields_not_sign_extended :
    resultReg (step brState) RPC = some 0x30FF ∧
    spec_sign_extend 0x1FE 9 = 0xFFFE ∧
    wrap (0x3001 + spec_sign_extend 0x1FE 9) = 0x2FFF ∧
    (0x30FF : Nat) ≠ 0x2FFF := by
  refine ⟨by decide, by decide, by decide, by decide⟩

/-- C2: the BR arm tests `cond & COND == 1`, not `!= 0`. With COND =
NEGATIVE (0b100) and condition mask 0b100 the intersection is 0b100 ≠ 0,
so per the claim the branch must be taken; the code leaves PC unchanged
(branch not taken) because 0b100 ≠ 1. -/
theorem c2_br_tests_equality_to_one :
    resultReg (execInstr 0x0802 brNegState) RPC = some 0x3001 ∧
    FlagNEG &&& FlagNEG ≠ 0 ∧
    wrap (0x3001 + 2) ≠ 0x3001 := by
  refine ⟨by decide, by decide, by decide⟩

/-- C3: the LD arm writes the loaded word into R0 regardless of the decoded
DR field, and updates flags from the (unwritten) DR. Executing LD with
DR = R1, offset 5, on the state with `mem[0x3006] = 7` and R1 = 0x8000:
R0 receives 7, R1 keeps 0x8000, and COND becomes NEGATIVE from the stale
R1 — the claim requires R1 = 7 and flags from the loaded value. -/
theorem c3_ld_writes_r0_not_dr :
    resultReg (execInstr 0x2205 ldState) R0 = some 7 ∧
    resultReg (execInstr 0x2205 ldState) R1 = some 0x8000 ∧
    resultReg (execInstr 0x2205 ldState) RCOND = some FlagNEG := by
  refine ⟨by decide, by decide, by decide⟩

/-- C4: the STR arm computes its offset as `(instr >> 6) & 0b11111` (five
bits taken from the BaseR/offset area) instead of the architectural
`instr & 0b111111` of bits 5:0. For instruction 0x7283 (SR=R1, BaseR=R2,
offset6 field = 3) with R2 = 0x4000, the code stores R1 at 0x400A, and
the claimed target cell 0x4003 stays zero. -/
theorem c4_str_offset_wrong_bits :
    resultMem (execInstr 0x7283 strState) 0x400A = some 0x42 ∧
    resultMem (execInstr 0x7283 strState) 0x4003 = some 0 ∧
    wrap (0x4000 + spec_sign_extend 3 6) = 0x4003 := by
  refine ⟨by decide, by decide, by decide⟩

/-- C5: after LD the COND register does not match the just-written
register. Executing LD DR=R2, offset 3 with R2 = 0x8000 and
`mem[0x3004] = 5`: R0 is written with 5 (a positive value), yet COND
becomes NEGATIVE (taken from the stale R2), not POSITIVE. -/
theorem c5_flags_from_stale_register :
    resultReg (execInstr 0x2403 ldFlagState) R0 = some 5 ∧
    resultReg (execInstr 0x2403 ldFlagState) RCOND = some FlagNEG ∧
    FlagNEG ≠ FlagPOS := by
  refine ⟨by decide, by decide, by decide⟩

/-- C6: fetch reads memory at the current PC and then increments PC by one
modulo 65536; in particular PC = 0xFFFF wraps to 0x0000. -/
theorem c6_fetch_reads_then_increments (s : Machine) :
    (fetch s).1 = s.mem (wrap (s.regs RPC)) ∧
    (fetch s).2.regs RPC = wrap (s.regs RPC + 1) ∧
    (s.regs RPC = 0xFFFF → (fetch s).2.regs RPC = 0) := by
  refine ⟨rfl, by simp [fetch, setReg_regs], fun h => ?_⟩
  simp [fetch, setReg_regs, h, wrap]

/-- C6 witness: fetching at PC = 0xFFFF leaves PC = 0. -/
theorem c6_fetch_reads_then_increments_witness :
    fetchWrapState.regs RPC = 0xFFFF ∧ (fetch fetchWrapState).2.regs RPC = 0 :=
  ⟨by decide, (c6_fetch_reads_then_increments fetchWrapState).2.2 (by decide)⟩

/-- C7 counterexample: the IN service call, reached through TRAP, changes
COND. From COND = ZERO, executing TRAP 0x23 with the byte 0x41 pending
leaves COND = POSITIVE. -/
theorem c7_in_changes_cond :
    inState.regs RCOND = FlagZRO ∧
    resultReg (execInstr 0xF023 inState) RCOND = some FlagPOS ∧
    FlagPOS ≠ FlagZRO := by
  refine ⟨by decide, by decide, by decide⟩

/-- C7 amended: ST, STR, STI, JMP, JSR, BR, and TRAP with any service code
other than IN (0x23) leave the COND register unchanged; the IN service
call updates flags from R0. -/
theorem c7_non_defining_preserve_cond (instr : Nat) (s : Machine) (m : Machine)
    (hop : instr >>> 12 = 0 ∨ instr >>> 12 = 3 ∨ instr >>> 12 = 4 ∨
      instr >>> 12 = 7 ∨ instr >>> 12 = 11 ∨ instr >>> 12 = 12 ∨
      (instr >>> 12 = 15 ∧ instr &&& 255 ≠ 0x23))
    (hm : resultState (execInstr instr s) = some m) :
    m.regs RCOND = s.regs RCOND := by
  rcases hop with h | h | h | h | h | h | ⟨h, hc⟩ <;>
      simp only [execInstr, h] at hm <;> norm_num at hm
  · split at hm <;> cases hm <;> simp [setReg_regs, RPC, RCOND]
  · cases hm; simp [setMem_regs]
  · split at hm <;> cases hm <;> simp [setReg_regs, RPC, RCOND, R7]
  · cases hm; simp [setMem_regs]
  · cases hm; simp [setMem_regs]
  · cases hm; simp [setReg_regs, RPC, RCOND]
  · by_cases h20 : instr &&& 255 = 0x20
    · simp only [h20] at hm; norm_num at hm
      cases hm
      simp [setReg_regs, R0, RCOND, R7]
    · by_cases h21 : instr &&& 255 = 0x21
      · simp only [h21] at hm; norm_num at hm
        split at hm <;> cases hm <;> simp [setReg_regs, R7, RCOND]
      · by_cases h22 : instr &&& 255 = 0x22
        · simp only [h22] at hm; norm_num at hm
          split at hm <;> cases hm <;> simp [setReg_regs, R7, RCOND]
        · by_cases h24 : instr &&& 255 = 0x24
          · simp only [h24] at hm; norm_num at hm
            split at hm <;> cases hm <;> simp [setReg_regs, R7, RCOND]
          · by_cases h25 : instr &&& 255 = 0x25
            · simp only [h25] at hm; norm_num at hm
              cases hm; simp [setReg_regs, R7, RCOND]
            · simp only [if_neg h20, if_neg h21, if_neg h22, if_neg hc,
                if_neg h24, if_neg h25] at hm
              cases hm; simp [setReg_regs, R7, RCOND]

/-- C7 witness: an ST instruction preserves COND = POSITIVE. -/
theorem c7_non_defining_preserve_cond_witness :
    resultReg (execInstr 0x3005 stState) RCOND = some FlagPOS := by
  obtain ⟨m, hm⟩ : ∃ m, resultState (execInstr 0x3005 stState) = some m := ⟨_, rfl⟩
  have h := c7_non_defining_preserve_cond 0x3005 stState m
    (Or.inr (Or.inl (by decide))) hm
  unfold resultReg
  rw [hm]
  show some (m.regs RCOND) = some FlagPOS
  rw [h]
  decide

/-- C8 counterexample: an instruction other than TRAP-HALT, RTI, RES or an
unrecognized trap code that nonetheless does not continue the loop: OUT
with R0 = 0xD800 (a surrogate) aborts the run. -/
theorem c8_out_surrogate_fatal :
    isFatal (execInstr 0xF021 outBadState) = true ∧
    isNext (execInstr 0xF021 outBadState) = false ∧
    isHalted (execInstr 0xF021 outBadState) = false := by
  refine ⟨by decide, by decide, by decide⟩

/-- C8 amended: execution returns normally only from TRAP HALT; RTI, RES
and unrecognized trap codes abort fatally; every instruction outside
RTI/RES/TRAP continues the loop (TRAP service calls may additionally
abort on invalid code points or loop forever, per the counterexample). -/
theorem c8_halt_classification (instr : Nat) (s : Machine) :
    (∀ m, execInstr instr s = .halted m →
      instr >>> 12 = 15 ∧ instr &&& 255 = 0x25) ∧
    ((instr >>> 12 = 8 ∨ instr >>> 12 = 13) → isFatal (execInstr instr s) = true) ∧
    (instr >>> 12 = 15 → instr &&& 255 ≠ 0x20 → instr &&& 255 ≠ 0x21 →
      instr &&& 255 ≠ 0x22 → instr &&& 255 ≠ 0x23 → instr &&& 255 ≠ 0x24 →
      instr &&& 255 ≠ 0x25 → isFatal (execInstr instr s) = true) ∧
    (instr < 65536 → instr >>> 12 ≠ 8 → instr >>> 12 ≠ 13 → instr >>> 12 ≠ 15 →
      isNext (execInstr instr s) = true) := by
  refine ⟨fun m hm => execInstr_halted instr s m hm, ?_, ?_, ?_⟩
  · rintro (h | h) <;> simp only [execInstr, h] <;> norm_num [isFatal]
  · intro h15 h20 h21 h22 h23 h24 h25
    simp only [execInstr, h15]
    norm_num
    simp only [if_neg h20, if_neg h21, if_neg h22, if_neg h23, if_neg h24,
      if_neg h25]
    rfl
  · intro hlo h8 h13 h15
    have hlt : instr >>> 12 < 16 := by
      rw [Nat.shiftRight_eq_div_pow]
      omega
    have hop : instr >>> 12 = 0 ∨ instr >>> 12 = 1 ∨ instr >>> 12 = 2 ∨
        instr >>> 12 = 3 ∨ instr >>> 12 = 4 ∨ instr >>> 12 = 5 ∨
        instr >>> 12 = 6 ∨ instr >>> 12 = 7 ∨ instr >>> 12 = 9 ∨
        instr >>> 12 = 10 ∨ instr >>> 12 = 11 ∨ instr >>> 12 = 12 ∨
        instr >>> 12 = 14 := by omega
    rcases hop with h | h | h | h | h | h | h | h | h | h | h | h | h <;>
      simp only [execInstr, h] <;> norm_num <;>
      first
      | rfl
      | (split <;> rfl)

/-- C8 witness: RTI (0x8000) aborts fatally, and ADD R0,R0,R2 (0x1002)
continues the loop. -/
theorem c8_halt_classification_witness :
    isFatal (execInstr 0x8000 plainState) = true ∧
    isNext (execInstr 0x1002 plainState) = true :=
  ⟨(c8_halt_classification 0x8000 plainState).2.1 (Or.inl (by decide)),
    (c8_halt_classification 0x1002 plainState).2.2.2 (by decide) (by decide)
      (by decide) (by decide)⟩

/-- C9 counterexample: with `mem[R0] = 0xD800` (a surrogate) followed by the
zero terminator, PUTS aborts fatally and writes nothing, instead of
writing the character for each cell before the zero word. -/
theorem c9_puts_surrogate_fatal :
    isFatal (execInstr 0xF022 putsBadState) = true ∧
    isNext (execInstr 0xF022 putsBadState) = false ∧
    resultOutput (execInstr 0xF022 putsBadState) = some [] ∧
    putsBadState.mem 0x4000 = 0xD800 ∧ putsBadState.mem 0x4001 = 0 := by
  refine ⟨by decide, by decide, by decide, by decide, by decide⟩

/-- C9 amended: provided every cell strictly before the first zero word is
a valid Unicode scalar value (for 16-bit cells: not in the surrogate
range 0xD800-0xDFFF), PUTS appends to the output stream exactly the
characters whose code points are the successive cell values from
`mem[R0]` up to but excluding the first zero word, and continues. -/
theorem c9_puts_outputs_until_zero (instr : Nat) (s : Machine) (cs : List Nat)
    (hop : instr >>> 12 = 15) (hcode : instr &&& 255 = 0x22)
    (hcells : cellsAt s.mem (s.regs R0) cs = true)
    (hvalid : ∀ c ∈ cs, charFromU32 c = some c)
    (hlen : cs.length < 65536) :
    isNext (execInstr instr s) = true ∧
    resultOutput (execInstr instr s) = some (s.output ++ cs) := by
  have hmem : (setReg s R7 (s.regs RPC)).mem = s.mem := setReg_mem ..
  have hr0 : (setReg s R7 (s.regs RPC)).regs R0 = s.regs R0 := by
    simp [setReg_regs, R0, R7]
  have hout : (setReg s R7 (s.regs RPC)).output = s.output := setReg_output ..
  have hloop := putsLoop_ok cs s.mem (s.regs R0) 65536 hcells hvalid hlen
  simp only [execInstr, hop, hcode] at *
  norm_num
  simp [hmem, hr0, hout, hloop, isNext, resultOutput, resultState]

/-- C9 witness: PUTS over cells 72, 73, 0 writes exactly "HI" (72, 73). -/
theorem c9_puts_outputs_until_zero_witness :
    isNext (execInstr 0xF022 putsState) = true ∧
    resultOutput (execInstr 0xF022 putsState) = some [72, 73] := by
  have h := c9_puts_outputs_until_zero 0xF022 putsState [72, 73]
    (by decide) (by decide) (by decide) (by decide) (by decide)
  simpa using h

/-- C10: after GETC or IN reads a byte, R0 holds that byte zero-extended:
its high byte is zero, whatever R0 held before. -/
theorem c10_getc_in_zero_extend (instr : Nat) (s : Machine) (b : Nat)
    (rest : List Nat) (m : Machine)
    (hop : instr >>> 12 = 15)
    (hcode : instr &&& 255 = 0x20 ∨ instr &&& 255 = 0x23)
    (hin : s.input = b :: rest) (hb : b < 256)
    (hm : resultState (execInstr instr s) = some m) :
    m.regs R0 = b ∧ m.regs R0 ≤ 255 := by
  have hwb : wrap b = b := Nat.mod_eq_of_lt (by omega)
  rcases hcode with hc | hc <;>
    simp only [execInstr, hop, hc] at hm <;>
    norm_num at hm
  · simp only [setReg_input, hin, readByte] at hm
    cases hm
    simp [setReg_regs, R0, hwb]
    omega
  · simp only [setReg_input, hin, readByte] at hm
    cases hm
    rw [update_flags_regs_ne _ _ _ (by decide)]
    simp [setReg_regs, R0, hwb]
    omega

/-- C10 witness: GETC with byte 65 pending and R0 = 0xFFFF beforehand
leaves R0 = 65. -/
theorem c10_getc_in_zero_extend_witness :
    resultReg (execInstr 0xF020 getcState) R0 = some 65 ∧ (65 : Nat) ≤ 255 := by
  obtain ⟨m, hm⟩ : ∃ m, resultState (execInstr 0xF020 getcState) = some m := ⟨_, rfl⟩
  have h := c10_getc_in_zero_extend 0xF020 getcState 65 [] m (by decide)
    (Or.inl (by decide)) rfl (by decide) hm
  simp [resultReg, hm, h.1]

end LC3
